import Mathlib

/-!
Shallow embedding of the PyChrometrics reference notebook.

The notebook computes psychrometric properties of moist air with pint
quantities.  Every function operates on the float magnitude of its
arguments; here floats become real numbers, unit conversions become the
exact affine maps pint applies, and Python's ZeroDivisionError and the
unbounded `while` loop of the wet-bulb solver become an explicit error
value and a fuel parameter.
-/

noncomputable section

namespace PyChrometrics

/-- Fahrenheit to Celsius conversion, as pint performs for `.to('degC')`. -/
def FtoC (T : ℝ) : ℝ := (T - 32) * 5 / 9

/-- Fahrenheit to Kelvin conversion, as pint performs for `.to('K')`. -/
def FtoK (T : ℝ) : ℝ := (T - 32) * 5 / 9 + 273.15

/-- Pascals per psi, from pint's exact definitions:
pound-force = 0.45359237 kg * 9.80665 m/s^2, square inch = 0.00064516 m^2. -/
def PaPerPsi : ℝ := 0.45359237 * 9.80665 / 0.00064516

/-- `Cp_water`: specific heat capacity of water, quadratic in Celsius
temperature, converted from kJ/(kg K) to Btu/(lb degF) (exact factor 4.1868). -/
def Cp_water (T_wb : ℝ) : ℝ :=
  (0.0265 * FtoC T_wb ^ 2 - 1.7688 * FtoC T_wb + 4205.6) * 1e-3 / 4.1868

/-- `Cp_vapor`: specific heat capacity of water vapor, quadratic in Celsius
temperature, converted from kJ/(kg K) to Btu/(lb degF). -/
def Cp_vapor (T_db : ℝ) : ℝ :=
  (0.0016 * FtoC T_db ^ 2 + 0.1546 * FtoC T_db + 1858.7) * 1e-3 / 4.1868

/-- `Cp_dry_air`: specific heat capacity of dry air, linear in the average of
the two Celsius temperatures, converted from kJ/(kg K) to Btu/(lb degF). -/
def Cp_dry_air (T_db T_wb : ℝ) : ℝ :=
  (0.0667 * (FtoC T_db + FtoC T_wb) / 2 + 1005) * 1e-3 / 4.1868

/-- Logarithm (in Pa) of the Hyland-Wexler saturation pressure over ice:
`ln_P_is = C0/T + C1 + C2 T + C3 T^2 + C4 T^3 + C5 T^4 + C6 ln T` with the
seven ice coefficients of `P_ice_sat`; `T` is in kelvin. -/
def lnPis (T : ℝ) : ℝ :=
  -5.6745359e3 / T + 6.3925247 + (-9.677843e-3) * T + 6.2215701e-7 * T ^ 2 +
    2.0747825e-9 * T ^ 3 + (-9.4840240e-13) * T ^ 4 + 4.1635019 * Real.log T

/-- `P_ice_sat`: water vapor saturation pressure over ice in psia. -/
def P_ice_sat (T_db : ℝ) : ℝ := Real.exp (lnPis (FtoK T_db)) / PaPerPsi

/-- Logarithm (in Pa) of the Hyland-Wexler saturation pressure over water:
`ln_P_sat = C0/T + C1 + C2 T + C3 T^2 + C4 T^3 + C5 ln T` with the six water
coefficients of `P_w_sat`; `T` is in kelvin. -/
def lnPw (T : ℝ) : ℝ :=
  -5.8002206e3 / T + 1.3914994 + (-4.8640239e-2) * T + 4.1764768e-5 * T ^ 2 +
    (-1.4452093e-8) * T ^ 3 + 6.5459673 * Real.log T

/-- `P_w_sat`: water vapor saturation pressure over water in psia. -/
def P_w_sat (T_db : ℝ) : ℝ := Real.exp (lnPw (FtoK T_db)) / PaPerPsi

/-- `P_v_sat`: saturated vapor partial pressure, dispatching on the Fahrenheit
magnitude: ice branch for `T_db < 32`, water branch otherwise. -/
def P_v_sat (T_db : ℝ) : ℝ := if T_db < 32 then P_ice_sat T_db else P_w_sat T_db

/-- `W_sat`: saturated humidity ratio `MMR * Pws / (Patm - Pws)` with
`Pws = P_v_sat T_db`, `MMR = 0.62198`, `Patm = 14.696` psi. -/
def W_sat (T_db : ℝ) : ℝ := 0.62198 * P_v_sat T_db / (14.696 - P_v_sat T_db)

/-- `W`: actual humidity ratio `MMR * (Pws * RH) / (Patm - Pws * RH)` where
the notebook calls `P_w_sat` (the water branch), not the dispatching
`P_v_sat`. -/
def W (T_db RH : ℝ) : ℝ :=
  0.62198 * (P_w_sat T_db * RH) / (14.696 - P_w_sat T_db * RH)

/-- `W0`: humidity ratio estimate with variable specific heats,
`((h_fg - (Cp_w - Cp_v) Twb) Ws(Twb) - Cp_da (Tdb - Twb)) /
(h_fg + Cp_v Tdb - Cp_w Twb)` with `h_fg = 1069.9`. -/
def W0 (Tdb Twb : ℝ) : ℝ :=
  ((1069.9 - (Cp_water Twb - Cp_vapor Tdb) * Twb) * W_sat Twb
      - Cp_dry_air Tdb Twb * (Tdb - Twb)) /
    (1069.9 + Cp_vapor Tdb * Tdb - Cp_water Twb * Twb)

/-- `W1`: humidity ratio estimate with constant specific heats
`Cp_da = 0.240`, `Cp_w = 0.999`, `Cp_v = 0.451`.  In the notebook the
saturated humidity ratio line reads `Ws_wb = W_sat(Twb).m`, and `Twb` is not
the parameter (named `T_wb`) but the notebook-global `Twb` defined in a later
cell; that ambient value is made explicit here as the extra first argument
`Twb_global`. -/
def W1 (Twb_global T_db T_wb : ℝ) : ℝ :=
  ((1069.9 - (0.999 - 0.451) * T_wb) * W_sat Twb_global - 0.240 * (T_db - T_wb)) /
    (1069.9 + 0.451 * T_db - 0.999 * T_wb)

/-- Modelled from the spec: `estimate_humidity_ratio_constant_cp` as section
4.3 describes it, "identical structure to the variable-cp estimate but with
fixed constants `Cp_da=0.240`, `Cp_w=0.999`, `Cp_v=0.451`", with the
saturated humidity ratio evaluated at the function's own `T_wb` argument. -/
def W1_spec (T_db T_wb : ℝ) : ℝ :=
  ((1069.9 - (0.999 - 0.451) * T_wb) * W_sat T_wb - 0.240 * (T_db - T_wb)) /
    (1069.9 + 0.451 * T_db - 0.999 * T_wb)

/-- Stop condition of the wet-bulb solver. -/
def epsilon : ℝ := 1e-6

/-- The solver's inner `deltaW`: `(|_W - _W0| / _W) / 100` where `Wt` is the
target humidity ratio `_W` and `We` the current estimate `_W0`. -/
def deltaW (Wt We : ℝ) : ℝ := |Wt - We| / Wt / 100

/-- Result of one run of the wet-bulb solver.  `converged` is the normal
return; `zeroDivision` is Python's ZeroDivisionError raised by `deltaW` when
the target `_W` is zero; `outOfFuel` (carrying the last trial magnitude and
last estimate) only marks exhaustion of the fuel that makes the unbounded
`while` loop of the source a total Lean function. -/
inductive IterResult where
  | converged : ℝ → IterResult
  | zeroDivision : IterResult
  | outOfFuel : ℝ → ℝ → IterResult

/-- The solver loop.  State: trial wet-bulb magnitude `Twbm` and current
estimate `We`; the dry-bulb `Tdb` and target `Wt` are fixed.  Each pass of
the `while` tests `|_W0 - _W| > epsilon`, then multiplies `Twbm` by
`1 - deltaW()` if `|_W0 - _W| > 0` and by `1 + deltaW()` otherwise, then
recomputes `_W0 = W0(T_db, Twbm)`.  `deltaW` divides by `Wt`, so a zero
target raises. -/
def T_wb_go (Tdb Wt : ℝ) : ℕ → ℝ → ℝ → IterResult
  | 0, Twbm, We =>
      if |We - Wt| > epsilon then IterResult.outOfFuel Twbm We
      else IterResult.converged Twbm
  | n + 1, Twbm, We =>
      if |We - Wt| > epsilon then
        if Wt = 0 then IterResult.zeroDivision
        else
          T_wb_go Tdb Wt n
            (Twbm * (if |We - Wt| > 0 then 1 - deltaW Wt We else 1 + deltaW Wt We))
            (W0 Tdb (Twbm * (if |We - Wt| > 0 then 1 - deltaW Wt We else 1 + deltaW Wt We)))
      else IterResult.converged Twbm

/-- `T_wb_iter`: the iterative wet-bulb solver.  Initial trial magnitude is
the dry-bulb temperature, the target `_W = W(T_db, RH)` is computed once, the
initial estimate is `_W0 = W0(T_db, T_db)`. -/
def T_wb_iter (fuel : ℕ) (T_db RH : ℝ) : IterResult :=
  T_wb_go T_db (W T_db RH) fuel T_db (W0 T_db T_db)

/-- Claim C4: `P_v_sat` dispatches to the ice branch exactly when the
Fahrenheit temperature is strictly below 32, and to the water branch
otherwise; in particular it takes the ice branch at 31.9 degF and the water
branch at 32.1 degF. -/
theorem P_v_sat_dispatch :
    (∀ T : ℝ, (T < 32 → P_v_sat T = P_ice_sat T) ∧ (¬T < 32 → P_v_sat T = P_w_sat T)) ∧
    P_v_sat 31.9 = P_ice_sat 31.9 ∧ P_v_sat 32.1 = P_w_sat 32.1 := by
  refine ⟨fun T => ⟨fun h => ?_, fun h => ?_⟩, ?_, ?_⟩
  · unfold P_v_sat; rw [if_pos h]
  · unfold P_v_sat; rw [if_neg h]
  · unfold P_v_sat; rw [if_pos (by norm_num)]
  · unfold P_v_sat; rw [if_neg (by norm_num)]

/-- Witness for C4 at the concrete temperature 31.9 degF. -/
theorem P_v_sat_dispatch_witness :
    (31.9 : ℝ) < 32 ∧ P_v_sat 31.9 = P_ice_sat 31.9 :=
  ⟨by norm_num, (P_v_sat_dispatch.1 31.9).1 (by norm_num)⟩

/-- Claim C5: the actual humidity ratio `W` always uses the water-branch
saturation pressure `P_w_sat`, even below 32 degF, while `W_sat` uses the
dispatching `P_v_sat` (hence the ice branch below 32 degF). -/
theorem W_uses_water_branch :
    ∀ T RH : ℝ,
      W T RH = 0.62198 * (P_w_sat T * RH) / (14.696 - P_w_sat T * RH) ∧
      W_sat T = 0.62198 * P_v_sat T / (14.696 - P_v_sat T) ∧
      (T < 32 →
        W T RH = 0.62198 * (P_w_sat T * RH) / (14.696 - P_w_sat T * RH) ∧
        W_sat T = 0.62198 * P_ice_sat T / (14.696 - P_ice_sat T)) := by
  intro T RH
  refine ⟨rfl, rfl, fun h => ⟨rfl, ?_⟩⟩
  unfold W_sat P_v_sat
  rw [if_pos h]

/-- Witness for C5 at 31 degF (below freezing) and RH one half. -/
theorem W_uses_water_branch_witness :
    (31 : ℝ) < 32 ∧
      W 31 0.5 = 0.62198 * (P_w_sat 31 * 0.5) / (14.696 - P_w_sat 31 * 0.5) ∧
      W_sat 31 = 0.62198 * P_ice_sat 31 / (14.696 - P_ice_sat 31) :=
  ⟨by norm_num, (W_uses_water_branch 31 0.5).1,
    ((W_uses_water_branch 31 0.5).2.2 (by norm_num)).2⟩

/-- Claim C1: the solver follows the specified algorithm.  The four conjuncts
state: initialization (trial magnitude starts at `T_db`, the target
`W(T_db, RH)` is fixed once, the first estimate is `W0(T_db, T_db)`); the
formula of `deltaW`; termination with the trial value once the tolerance is
met; and the step rule, which multiplies the trial magnitude by `1 - delta`
when `|W_target - W_est| > 0` and `1 + delta` otherwise, then recomputes the
estimate at the original dry-bulb and the new trial value. -/
theorem T_wb_iter_follows_algorithm :
    ∀ (Tdb RH : ℝ) (fuel : ℕ),
      T_wb_iter fuel Tdb RH = T_wb_go Tdb (W Tdb RH) fuel Tdb (W0 Tdb Tdb) ∧
      (∀ Wt We : ℝ, deltaW Wt We = |Wt - We| / Wt / 100) ∧
      (∀ (Wt Twbm We : ℝ) (n : ℕ), ¬|We - Wt| > epsilon →
        T_wb_go Tdb Wt (n + 1) Twbm We = IterResult.converged Twbm) ∧
      (∀ (Wt Twbm We : ℝ) (n : ℕ), |We - Wt| > epsilon → Wt ≠ 0 →
        T_wb_go Tdb Wt (n + 1) Twbm We =
          T_wb_go Tdb Wt n
            (Twbm * (if |We - Wt| > 0 then 1 - deltaW Wt We else 1 + deltaW Wt We))
            (W0 Tdb (Twbm * (if |We - Wt| > 0 then 1 - deltaW Wt We else 1 + deltaW Wt We)))) := by
  intro Tdb RH fuel
  refine ⟨rfl, fun _ _ => rfl, fun Wt Twbm We n hg => ?_, fun Wt Twbm We n hg hWt => ?_⟩
  · simp only [T_wb_go]
    rw [if_neg hg]
  · simp only [T_wb_go]
    rw [if_pos hg, if_neg hWt]

/-- Witness for C1: initialization at concrete inputs, and a concrete
converged step where the guard fails. -/
theorem T_wb_iter_follows_algorithm_witness :
    (T_wb_iter 3 65 0.5 = T_wb_go 65 (W 65 0.5) 3 65 (W0 65 65) ∧
      ¬|(1 : ℝ) - 1| > epsilon) ∧
      T_wb_go 65 1 1 70 1 = IterResult.converged 70 :=
  ⟨⟨(T_wb_iter_follows_algorithm 65 0.5 3).1, by norm_num [epsilon]⟩,
    (T_wb_iter_follows_algorithm 65 0.5 3).2.2.1 1 70 1 0 (by norm_num [epsilon])⟩

/-- Claim C8: the enlarging else-branch of the step rule is dead code.  Under
the loop guard `|W_est - W_target| > epsilon` the branch condition
`|W_est - W_target| > 0` always holds, so every executed update multiplies
the trial magnitude by `1 - deltaW`, never `1 + deltaW`. -/
theorem solver_else_branch_dead :
    ∀ (Tdb Wt Twbm We : ℝ) (n : ℕ), |We - Wt| > epsilon → Wt ≠ 0 →
      0 < |We - Wt| ∧
      T_wb_go Tdb Wt (n + 1) Twbm We =
        T_wb_go Tdb Wt n (Twbm * (1 - deltaW Wt We))
          (W0 Tdb (Twbm * (1 - deltaW Wt We))) := by
  intro Tdb Wt Twbm We n hg hWt
  have hpos : 0 < |We - Wt| := lt_trans (by norm_num [epsilon]) hg
  refine ⟨hpos, ?_⟩
  simp only [T_wb_go]
  rw [if_pos hg, if_neg hWt, if_pos hpos]

/-- Witness for C8 with a concrete guard-satisfying state. -/
theorem solver_else_branch_dead_witness :
    (|(2 : ℝ) - 1| > epsilon ∧ (1 : ℝ) ≠ 0) ∧
      0 < |(2 : ℝ) - 1| ∧
      T_wb_go 65 1 1 70 2 =
        T_wb_go 65 1 0 (70 * (1 - deltaW 1 2)) (W0 65 (70 * (1 - deltaW 1 2))) :=
  ⟨⟨by norm_num [epsilon], by norm_num⟩,
    solver_else_branch_dead 65 1 70 2 0 (by norm_num [epsilon]) (by norm_num)⟩

/-- Lower companion of `Real.log_le_sub_one_of_pos`. -/
lemma one_sub_inv_le_log (x : ℝ) (hx : 0 < x) : 1 - x⁻¹ ≤ Real.log x := by
  have h := Real.log_le_sub_one_of_pos (inv_pos.mpr hx)
  rw [Real.log_inv] at h
  linarith

/-- Bounds on the natural log of the kelvin value of 65 degF. -/
lemma log_K65_bounds :
    5.666 ≤ Real.log (2623.35 / 9) ∧ Real.log (2623.35 / 9) ≤ 5.684 := by
  have hrw : (2623.35 / 9 : ℝ) = 2 ^ 8 * (2623.35 / 2304) := by norm_num
  rw [hrw, Real.log_mul (by norm_num) (by norm_num), Real.log_pow]
  have h2l := Real.log_two_gt_d9
  have h2u := Real.log_two_lt_d9
  have hyl := one_sub_inv_le_log (2623.35 / 2304) (by norm_num)
  have hyu := Real.log_le_sub_one_of_pos (show (0 : ℝ) < 2623.35 / 2304 by norm_num)
  norm_num at hyl hyu ⊢
  constructor <;> nlinarith

/-- Upper bound on the natural log of the kelvin value of 100 degF. -/
lemma log_K100_ub : Real.log (2798.35 / 9) ≤ 5.7598 := by
  have hrw : (2798.35 / 9 : ℝ) = 2 ^ 8 * (2798.35 / 2304) := by norm_num
  rw [hrw, Real.log_mul (by norm_num) (by norm_num), Real.log_pow]
  have h2u := Real.log_two_lt_d9
  have hyu := Real.log_le_sub_one_of_pos (show (0 : ℝ) < 2798.35 / 2304 by norm_num)
  norm_num at hyu ⊢
  nlinarith

/-- Lower bound on the natural log of the kelvin value of 300 degF. -/
lemma log_K300_lb : 5.9385 ≤ Real.log (3798.35 / 9) := by
  have hrw : (3798.35 / 9 : ℝ) = 2 ^ 8 * (3798.35 / 2304) := by norm_num
  rw [hrw, Real.log_mul (by norm_num) (by norm_num), Real.log_pow]
  have h2l := Real.log_two_gt_d9
  have hyl := one_sub_inv_le_log (3798.35 / 2304) (by norm_num)
  norm_num at hyl ⊢
  nlinarith

/-- The Hyland-Wexler water exponent at 65 degF lies strictly between 0 and 9. -/
lemma lnPw_K65_bounds : 0 < lnPw (FtoK 65) ∧ lnPw (FtoK 65) < 9 := by
  have hK : FtoK 65 = 2623.35 / 9 := by unfold FtoK; norm_num
  obtain ⟨hl, hu⟩ := log_K65_bounds
  rw [hK]
  unfold lnPw
  constructor <;> nlinarith

/-- The Hyland-Wexler water exponent at 100 degF is below 9. -/
lemma lnPw_K100_lt : lnPw (FtoK 100) < 9 := by
  have hK : FtoK 100 = 2798.35 / 9 := by unfold FtoK; norm_num
  rw [hK]
  unfold lnPw
  nlinarith [log_K100_ub]

/-- The Hyland-Wexler water exponent at 300 degF is above 11.65. -/
lemma lnPw_K300_gt : 11.65 < lnPw (FtoK 300) := by
  have hK : FtoK 300 = 3798.35 / 9 := by unfold FtoK; norm_num
  rw [hK]
  unfold lnPw
  nlinarith [log_K300_lb]

lemma exp_nine_lt : Real.exp 9 < 8192 := by
  have h : (9 : ℝ) < Real.log 8192 := by
    rw [show (8192 : ℝ) = 2 ^ 13 by norm_num, Real.log_pow]
    have := Real.log_two_gt_d9
    push_cast
    nlinarith
  calc Real.exp 9 < Real.exp (Real.log 8192) := Real.exp_lt_exp.mpr h
    _ = 8192 := Real.exp_log (by norm_num)

lemma exp_gt_101326 : (101326 : ℝ) < Real.exp 11.65 := by
  have h : Real.log 101326 < 11.65 := by
    rw [show (101326 : ℝ) = 2 ^ 17 * (101326 / 131072) by norm_num,
      Real.log_mul (by norm_num) (by norm_num), Real.log_pow]
    have h2 := Real.log_two_lt_d9
    have hy := Real.log_le_sub_one_of_pos (show (0 : ℝ) < 101326 / 131072 by norm_num)
    norm_num at hy ⊢
    nlinarith
  calc (101326 : ℝ) = Real.exp (Real.log 101326) := (Real.exp_log (by norm_num)).symm
    _ < Real.exp 11.65 := Real.exp_lt_exp.mpr h

lemma PaPerPsi_pos : 0 < PaPerPsi := by unfold PaPerPsi; norm_num

/-- On the water branch `W_sat` is the ASHRAE formula at `P_w_sat`. -/
lemma W_sat_water (T : ℝ) (h : ¬T < 32) :
    W_sat T = 0.62198 * P_w_sat T / (14.696 - P_w_sat T) := by
  unfold W_sat P_v_sat
  rw [if_neg h]

/-- Crude but sufficient enclosure of the saturation pressure at 65 degF. -/
lemma P_w_sat_65_bounds : 1 / PaPerPsi < P_w_sat 65 ∧ P_w_sat 65 < 8192 / PaPerPsi := by
  obtain ⟨hl, hu⟩ := lnPw_K65_bounds
  have h1 : (1 : ℝ) < Real.exp (lnPw (FtoK 65)) := by
    calc (1 : ℝ) = Real.exp 0 := Real.exp_zero.symm
      _ < Real.exp (lnPw (FtoK 65)) := Real.exp_lt_exp.mpr hl
  have h2 : Real.exp (lnPw (FtoK 65)) < 8192 :=
    lt_trans (Real.exp_lt_exp.mpr hu) exp_nine_lt
  unfold P_w_sat
  exact ⟨(div_lt_div_iff_of_pos_right PaPerPsi_pos).mpr h1, (div_lt_div_iff_of_pos_right PaPerPsi_pos).mpr h2⟩

/-- The saturated humidity ratio at 65 degF exceeds the solver tolerance. -/
lemma W_sat_65_gt : 1e-6 < W_sat 65 := by
  obtain ⟨hl, hu⟩ := P_w_sat_65_bounds
  have hlo : (1.45e-4 : ℝ) < P_w_sat 65 :=
    lt_trans (by unfold PaPerPsi; norm_num) hl
  have hhi : P_w_sat 65 < 1.189 :=
    lt_trans hu (by unfold PaPerPsi; norm_num)
  rw [W_sat_water 65 (by norm_num), lt_div_iff₀ (by linarith)]
  nlinarith

/-- Common-factor cancellation: with equal dry- and wet-bulb temperatures the
variable-cp estimate collapses to the saturated humidity ratio, provided the
shared factor (the denominator) is nonzero. -/
lemma W0_diag (T : ℝ) (hb : 1069.9 + Cp_vapor T * T - Cp_water T * T ≠ 0) :
    W0 T T = W_sat T := by
  unfold W0
  have h : (1069.9 - (Cp_water T - Cp_vapor T) * T) * W_sat T - Cp_dry_air T T * (T - T)
      = (1069.9 + Cp_vapor T * T - Cp_water T * T) * W_sat T := by ring
  rw [h, mul_div_cancel_left₀ _ hb]

/-- The denominator of `W0` is nonzero at 65 degF. -/
lemma hb65 : 1069.9 + Cp_vapor 65 * 65 - Cp_water 65 * 65 ≠ 0 := by
  unfold Cp_vapor Cp_water FtoC
  norm_num

/-- The initial estimate at `T_db = 65` exceeds the tolerance in magnitude. -/
lemma W0_65_abs_gt : 1e-6 < |W0 65 65| := by
  rw [W0_diag 65 hb65, abs_of_pos (lt_trans (by norm_num) W_sat_65_gt)]
  exact W_sat_65_gt

/-- With zero relative humidity the target humidity ratio is exactly zero. -/
lemma W_rh0 (T : ℝ) : W T 0 = 0 := by
  unfold W
  simp

/-- With zero target and an out-of-tolerance initial estimate, the solver
divides by zero on its first pass. -/
lemma T_wb_iter_rh0 (T : ℝ) (n : ℕ) (h : 1e-6 < |W0 T T|) :
    T_wb_iter (n + 1) T 0 = IterResult.zeroDivision := by
  unfold T_wb_iter
  rw [W_rh0]
  simp only [T_wb_go]
  rw [if_pos (by simpa [epsilon] using h)]
  simp

/-- Claim C6: round-trip identity `W0(T, T) = W_sat(T)` whenever the common
factor `h_fg + Cp_v T - Cp_w T` (the denominator) is nonzero; the dry-air
term vanishes and the shared factor cancels exactly. -/
theorem W0_diagonal_eq_W_sat :
    ∀ T : ℝ, 1069.9 + Cp_vapor T * T - Cp_water T * T ≠ 0 → W0 T T = W_sat T :=
  fun T hb => W0_diag T hb

/-- Witness for C6 at 65 degF. -/
theorem W0_diagonal_eq_W_sat_witness :
    (1069.9 + Cp_vapor 65 * 65 - Cp_water 65 * 65 ≠ 0) ∧ W0 65 65 = W_sat 65 :=
  ⟨hb65, W0_diagonal_eq_W_sat 65 hb65⟩

/-- Claim C2, refuted on the code: at `T_db = 65` degF and `RH = 0` the
solver neither converges nor reports a capped convergence failure; it raises
a division-by-zero error on the first iteration (the spec's 10000-step cap
is supplied as fuel and is never consumed). -/
theorem T_wb_iter_no_cap_for_rh_zero :
    T_wb_iter 10000 65 0 = IterResult.zeroDivision := by
  rw [show (10000 : ℕ) = 9999 + 1 by norm_num]
  exact T_wb_iter_rh0 65 9999 W0_65_abs_gt

/-- Claim C10: for `RH = 0` the target `W(T_db, 0)` is exactly zero, so
whenever the initial estimate exceeds the tolerance in magnitude the solver
raises a division-by-zero error on the first iteration. -/
theorem T_wb_iter_rh_zero_div_by_zero :
    ∀ (T : ℝ) (fuel : ℕ), 1e-6 < |W0 T T| → 1 ≤ fuel →
      W T 0 = 0 ∧ T_wb_iter fuel T 0 = IterResult.zeroDivision := by
  intro T fuel h hf
  obtain ⟨n, rfl⟩ : ∃ n, fuel = n + 1 := ⟨fuel - 1, by omega⟩
  exact ⟨W_rh0 T, T_wb_iter_rh0 T n h⟩

/-- Witness for C10 at 65 degF with one unit of fuel. -/
theorem T_wb_iter_rh_zero_div_by_zero_witness :
    (1e-6 < |W0 65 65| ∧ (1 : ℕ) ≤ 1) ∧
      W 65 0 = 0 ∧ T_wb_iter 1 65 0 = IterResult.zeroDivision :=
  ⟨⟨W0_65_abs_gt, le_refl 1⟩,
    T_wb_iter_rh_zero_div_by_zero 65 1 W0_65_abs_gt (le_refl 1)⟩

/-- Strict monotonicity of the water-branch Hyland-Wexler exponent on the
kelvin interval [277, 311].  The exponent splits into the strictly increasing
pieces `C0/T + C2 T` (increasing while `T1 T2 < -C0/|C2|`), the pair
`C3 T^2 + C4 T^3`, and `C5 ln T`. -/
lemma lnPw_mono (k1 k2 : ℝ) (h1 : 277 ≤ k1) (h12 : k1 < k2) (h2 : k2 ≤ 311) :
    lnPw k1 < lnPw k2 := by
  have hk1 : (0 : ℝ) < k1 := by linarith
  have hk2 : (0 : ℝ) < k2 := by linarith
  have hk1' : k1 ≠ 0 := ne_of_gt hk1
  have hk2' : k2 ≠ 0 := ne_of_gt hk2
  have hlog : Real.log k1 < Real.log k2 := Real.log_lt_log hk1 h12
  have hd : (0 : ℝ) < k2 - k1 := by linarith
  have hprod : k1 * k2 ≤ 96721 := by nlinarith
  have hprodpos : (0 : ℝ) < k1 * k2 := mul_pos hk1 hk2
  set q := 5800.2206 * (k2 - k1) / (k1 * k2) with hqdef
  have hq : q * (k1 * k2) = 5800.2206 * (k2 - k1) := by
    rw [hqdef]
    field_simp
  have hq0 : 0 ≤ q := div_nonneg (by nlinarith) (le_of_lt hprodpos)
  have hqlb : 5800.2206 * (k2 - k1) / 96721 ≤ q := by
    rw [div_le_iff₀ (by norm_num : (0 : ℝ) < 96721)]
    nlinarith [mul_nonneg hq0 (by linarith : (0 : ℝ) ≤ 96721 - k1 * k2)]
  have hsq : 554 * (k2 - k1) ≤ k2 ^ 2 - k1 ^ 2 := by
    nlinarith [mul_nonneg hd.le (by linarith : (0 : ℝ) ≤ k1 + k2 - 554)]
  have hcube : k2 ^ 3 - k1 ^ 3 ≤ 290163 * (k2 - k1) := by
    have ha : k1 ^ 2 ≤ 96721 := by nlinarith
    have hb : k2 ^ 2 ≤ 96721 := by nlinarith
    have hsum : k1 ^ 2 + k1 * k2 + k2 ^ 2 ≤ 290163 := by linarith
    nlinarith [mul_le_mul_of_nonneg_left hsum hd.le]
  have hkey : lnPw k2 - lnPw k1 =
      q + (-4.8640239e-2) * (k2 - k1) + 4.1764768e-5 * (k2 ^ 2 - k1 ^ 2)
        + (-1.4452093e-8) * (k2 ^ 3 - k1 ^ 3)
        + 6.5459673 * (Real.log k2 - Real.log k1) := by
    rw [hqdef]
    unfold lnPw
    field_simp
    ring
  linarith [hqlb, hsq, hcube, hlog, hkey]

/-- Strict monotonicity of `P_w_sat` on Fahrenheit [40, 100] (helper). -/
lemma P_w_sat_mono_aux (T1 T2 : ℝ) (h1 : 40 ≤ T1) (h12 : T1 < T2) (h2 : T2 ≤ 100) :
    P_w_sat T1 < P_w_sat T2 := by
  have hm : lnPw (FtoK T1) < lnPw (FtoK T2) := by
    apply lnPw_mono
    · unfold FtoK; linarith
    · unfold FtoK; linarith
    · unfold FtoK; linarith
  unfold P_w_sat
  exact (div_lt_div_iff_of_pos_right PaPerPsi_pos).mpr (Real.exp_lt_exp.mpr hm)

/-- On Fahrenheit [40, 100] the water-branch saturation pressure stays below
atmospheric pressure. -/
lemma P_w_sat_ub (T : ℝ) (h1 : 40 ≤ T) (h2 : T ≤ 100) : P_w_sat T < 14.696 := by
  have hln : lnPw (FtoK T) < 9 := by
    rcases lt_or_eq_of_le h2 with h | h
    · exact lt_trans
        (lnPw_mono (FtoK T) (FtoK 100) (by unfold FtoK; linarith)
          (by unfold FtoK; linarith) (by unfold FtoK; norm_num))
        lnPw_K100_lt
    · rw [h]; exact lnPw_K100_lt
  have hexp : Real.exp (lnPw (FtoK T)) < 8192 :=
    lt_trans (Real.exp_lt_exp.mpr hln) exp_nine_lt
  unfold P_w_sat
  rw [div_lt_iff₀ PaPerPsi_pos]
  have : (8192 : ℝ) < 14.696 * PaPerPsi := by unfold PaPerPsi; norm_num
  linarith

/-- The water-branch saturation pressure is positive. -/
lemma P_w_sat_pos (T : ℝ) : 0 < P_w_sat T := by
  unfold P_w_sat
  exact div_pos (Real.exp_pos _) PaPerPsi_pos

/-- Claim C9: `P_w_sat` is strictly increasing on Fahrenheit [40, 100]. -/
theorem P_w_sat_strict_increasing :
    ∀ T1 T2 : ℝ, 40 ≤ T1 → T1 < T2 → T2 ≤ 100 → P_w_sat T1 < P_w_sat T2 :=
  fun T1 T2 h1 h12 h2 => P_w_sat_mono_aux T1 T2 h1 h12 h2

/-- Witness for C9 at the concrete pair 50 degF, 60 degF. -/
theorem P_w_sat_strict_increasing_witness :
    ((40 : ℝ) ≤ 50 ∧ (50 : ℝ) < 60 ∧ (60 : ℝ) ≤ 100) ∧ P_w_sat 50 < P_w_sat 60 :=
  ⟨⟨by norm_num, by norm_num, by norm_num⟩,
    P_w_sat_strict_increasing 50 60 (by norm_num) (by norm_num) (by norm_num)⟩

/-- At 300 degF the water-branch saturation pressure exceeds atmospheric. -/
lemma P_w_sat_300_gt : 14.696 < P_w_sat 300 := by
  have h2 : (101326 : ℝ) < Real.exp (lnPw (FtoK 300)) :=
    lt_trans exp_gt_101326 (Real.exp_lt_exp.mpr lnPw_K300_gt)
  unfold P_w_sat
  rw [lt_div_iff₀ PaPerPsi_pos]
  have h3 : 14.696 * PaPerPsi < 101326 := by unfold PaPerPsi; norm_num
  linarith

/-- Claim C7, refuted on the code: at 300 degF the saturation pressure
exceeds atmospheric pressure and `W_sat` simply returns a negative humidity
ratio; no guard or failure of any kind exists in the code. -/
theorem W_sat_negative_above_atmospheric : W_sat 300 < 0 := by
  have hp := P_w_sat_300_gt
  rw [W_sat_water 300 (by norm_num)]
  apply div_neg_of_pos_of_neg
  · nlinarith
  · linarith

/-- The saturated humidity ratio grows between 45 degF and 55 degF. -/
lemma W_sat_45_lt_55 : W_sat 45 < W_sat 55 := by
  have hm : P_w_sat 45 < P_w_sat 55 :=
    P_w_sat_mono_aux 45 55 (by norm_num) (by norm_num) (by norm_num)
  have h0 : 0 < P_w_sat 45 := P_w_sat_pos 45
  have hub : P_w_sat 55 < 14.696 := P_w_sat_ub 55 (by norm_num) (by norm_num)
  rw [W_sat_water 45 (by norm_num), W_sat_water 55 (by norm_num),
    div_lt_div_iff₀ (by linarith) (by linarith)]
  nlinarith

/-- The notebook's `W1` at global `Twb = 45` differs from the spec's
constant-cp estimator at the same two arguments. -/
lemma W1_45_lt : W1 45 65 55 < W1_spec 65 55 := by
  have h := W_sat_45_lt_55
  unfold W1 W1_spec
  rw [div_lt_div_iff₀ (by norm_num) (by norm_num)]
  nlinarith

/-- Claim C3, refuted on the code: `W1` is not a function of its two
arguments.  With the notebook-global `Twb = 45` degF it disagrees with the
spec's constant-cp estimator at `(T_db, T_wb) = (65, 55)`, because the
saturated humidity ratio is taken at the global 45 degF instead of the
parameter 55 degF; were the global equal to the parameter, the two would
coincide definitionally. -/
theorem W1_depends_on_notebook_global :
    W1 45 65 55 ≠ W1_spec 65 55 ∧ W1 55 65 55 = W1_spec 65 55 :=
  ⟨ne_of_lt W1_45_lt, rfl⟩

end PyChrometrics

end
